import Mathlib

/-!
Verification of the CEREBRO frontend query submitter
(src/frontend/main.js, function askCerebro).

The function reads a text query, trims it, and either aborts with a status
message (empty input) or issues one HTTP POST to a fixed endpoint, then
renders the parsed JSON response into display fields.  We embed the display
surface as a record `DomState`, the parsed response as `RespData` with
optional fields (absence models a missing JSON key, i.e. `undefined` in
JavaScript), and the outcome of the fetch/parse as `FetchOutcome`.  The
function `askCerebro` mirrors the JavaScript control flow statement by
statement, including the truncated render that happens when a required
field is `undefined` and a method call on it throws a TypeError that lands
in the surrounding catch block.
-/

/-- The display surface written by askCerebro: the status line, whether the
result region carries the css class that hides it, and the five result
sub-fields (each stored as the rendered text). -/
structure DomState where
  status   : String
  hidden   : Bool
  output   : String
  mode     : String
  domain   : String
  sources  : String
  duration : String
deriving Repr, DecidableEq

/-- The parsed JSON response body.  Every field is optional: `none` models a
key that is absent from the JSON object, so that reading it in JavaScript
yields `undefined`.  `duration_secs` is carried as the string the number
renders to, since the code assigns it to innerText with no formatting. -/
structure RespData where
  error        : Option String
  response     : Option String
  mode         : Option String
  domain_used  : Option String
  sources_used : Option (List String)
  duration_secs : Option String
deriving Repr, DecidableEq

/-- Outcome of `await fetch(...)` followed by `await res.json()`: either the
parsed response data, or a failure (connection refused, timeout, malformed
JSON body) carrying the thrown error rendered as a string. -/
inductive FetchOutcome where
  | failure (err : String)
  | success (data : RespData)
deriving Repr, DecidableEq

/-- One HTTP request as issued by the code: url, method, the Content-Type
header and the serialized body. -/
structure AskRequest where
  url         : String
  method      : String
  contentType : String
  body        : String
deriving Repr, DecidableEq

/-- The whitespace class of the JavaScript trim operation: the ASCII space
and control whitespace characters together with NBSP, the line and
paragraph separators and the byte-order mark. -/
def jsWhitespace (c : Char) : Bool :=
  (9 ≤ c.toNat && c.toNat ≤ 13) || c = ' ' || c.toNat = 0xa0 ||
  c.toNat = 0x2028 || c.toNat = 0x2029 || c.toNat = 0xfeff

/-- JavaScript String.prototype.trim: drop leading and trailing whitespace
characters. -/
def jsTrim (s : String) : String :=
  ⟨((s.data.dropWhile jsWhitespace).reverse.dropWhile jsWhitespace).reverse⟩

/-- JavaScript String.prototype.toUpperCase restricted to the ASCII range,
which is all the code relies on. -/
def jsUpperChar (c : Char) : Char :=
  if 97 ≤ c.toNat ∧ c.toNat ≤ 122 then Char.ofNat (c.toNat - 32) else c

/-- Upper-casing of a whole string, character by character. -/
def jsToUpper (s : String) : String :=
  ⟨s.data.map jsUpperChar⟩

/-- JavaScript Array.prototype.join with separator `sep`: the empty array
joins to the empty string, a singleton to its element, and otherwise the
elements are interleaved with the separator. -/
def joinSep (sep : String) : List String → String
  | [] => ""
  | [x] => x
  | x :: xs => x ++ sep ++ joinSep sep xs

/-- Concatenation of a list of strings in order. -/
def concatList : List String → String
  | [] => ""
  | x :: xs => x ++ concatList xs

/-- JavaScript truthiness of an optional string: `undefined` and the empty
string are falsy, every other string is truthy. -/
def truthy : Option String → Bool
  | none => false
  | some s => !(s == "")

/-- Assigning a possibly-undefined string to innerText: `undefined` is
coerced to the text "undefined". -/
def innerTextOf : Option String → String
  | none => "undefined"
  | some s => s

/-- Lower-case hexadecimal digit, as produced by JSON.stringify escapes. -/
def hexDigit (n : Nat) : Char :=
  if n < 10 then Char.ofNat (48 + n) else Char.ofNat (87 + n)

/-- Escape of one character inside a JSON string literal, following
JSON.stringify: quote, backslash and the named control characters get
two-character escapes, the remaining control characters get a \u00xx
escape, everything else is kept verbatim. -/
def escChar (c : Char) : String :=
  if c = '"' then "\\\""
  else if c = '\\' then "\\\\"
  else if c = '\x08' then "\\b"
  else if c = '\x09' then "\\t"
  else if c = '\x0a' then "\\n"
  else if c = '\x0c' then "\\f"
  else if c = '\x0d' then "\\r"
  else if c.toNat < 32 then
    "\\u00" ++ String.mk [hexDigit (c.toNat / 16), hexDigit (c.toNat % 16)]
  else String.mk [c]

/-- JSON string literal for `s`, as JSON.stringify produces it. -/
def jsonStr (s : String) : String :=
  "\"" ++ concatList (s.data.map escChar) ++ "\""

/-- The body JSON.stringify produces for the object with the single field
query holding `q`. -/
def jsonBody (q : String) : String :=
  "\x7b\"query\":" ++ jsonStr q ++ "\x7d"

/-- The fixed endpoint the code posts to. -/
def askUrl : String := "http://localhost:5000/ask"

/-- Status message for empty input. -/
def pleaseMsg : String := "Please enter a query."

/-- Transient status message shown before the fetch is awaited. -/
def thinkingMsg : String := "Thinking..."

/-- Status message set in the catch block on any network or parse failure,
and on any exception thrown during the render pass. -/
def connectFailMsg : String := "⚠️ Failed to connect to Cerebro backend."

/-- Status message for a backend-reported error, interpolating the error
field. -/
def backendErrorMsg (e : String) : String := "⚠️ Error: " ++ e

/-- The request the code builds for a (trimmed, non-empty) query. -/
def mkRequest (query : String) : AskRequest :=
  ⟨askUrl, "POST", "application/json", jsonBody query⟩

/-- The display mutations performed before the fetch is awaited: on empty
trimmed input the status becomes `pleaseMsg`; otherwise the status becomes
`thinkingMsg` and the result region is hidden.  `askCerebro` below starts
from this state, so this is exactly the state visible while the request is
in flight. -/
def submitEarly (input : String) (s : DomState) : DomState :=
  let query := jsTrim input
  if query = "" then { s with status := pleaseMsg }
  else { s with status := thinkingMsg, hidden := true }

/-- Result of one call: the final display state, the list of HTTP requests
issued, and the list of errors written to the console log. -/
structure SubmitResult where
  dom      : DomState
  requests : List AskRequest
  log      : List String
deriving Repr, DecidableEq

/-- The body of the try block after the response has been parsed into
`data`.  A truthy error field sets the error status and returns.  Otherwise
the sub-fields are assigned in source order; reading toUpperCase of an
absent mode, or join of an absent sources_used, throws a TypeError, which
the catch block turns into `connectFailMsg` while the assignments already
made persist. -/
def handleData (data : RespData) (req : AskRequest) (s : DomState) : SubmitResult :=
  if truthy data.error then
    ⟨{ s with status := backendErrorMsg (data.error.getD "") }, [req], []⟩
  else
    let s1 := { s with output := innerTextOf data.response }
    match data.mode with
    | none => ⟨{ s1 with status := connectFailMsg }, [req],
        ["TypeError: data.mode is undefined"]⟩
    | some m =>
      let s2 := { s1 with mode := jsToUpper m, domain := innerTextOf data.domain_used }
      match data.sources_used with
      | none => ⟨{ s2 with status := connectFailMsg }, [req],
          ["TypeError: data.sources_used is undefined"]⟩
      | some srcs =>
        ⟨{ s2 with sources := joinSep ", " srcs,
                   duration := innerTextOf data.duration_secs,
                   hidden := false, status := "" }, [req], []⟩

/-- The whole askCerebro call: trim the input, stop with `pleaseMsg` when
empty, otherwise show the transient state, issue exactly one request and
dispatch on the fetch outcome.  A fetch or parse failure lands in the catch
block, which sets `connectFailMsg` and logs the error. -/
def askCerebro (input : String) (backend : FetchOutcome) (s : DomState) : SubmitResult :=
  let query := jsTrim input
  let s0 := submitEarly input s
  if query = "" then ⟨s0, [], []⟩
  else
    let req := mkRequest query
    match backend with
    | .failure err => ⟨{ s0 with status := connectFailMsg }, [req], [err]⟩
    | .success data => handleData data req s0

/-- A neutral initial display state used by concrete witnesses. -/
def initState : DomState :=
  ⟨"", true, "", "", "", "", ""⟩

/-- A display state with pairwise distinct field values, used by witnesses
of frame properties so that preservation of each field is visible. -/
def sampleState : DomState :=
  ⟨"st", false, "out", "mo", "dm", "so", "du"⟩

/-- The fully populated success response used as an example in the spec. -/
def dataFull : RespData :=
  ⟨none, some "42", some "fast", some "math", some ["a", "b"], some "0.12"⟩

/-- A response whose error field is present but holds the empty string. -/
def dataEmptyError : RespData :=
  ⟨some "", some "x", some "fast", some "m", some ["a"], some "1"⟩

/-- A success response from which the mode field is absent. -/
def dataNoMode : RespData :=
  ⟨none, some "42", none, some "math", some ["a"], some "1"⟩

/-- A backend-error response carrying a non-empty error message. -/
def dataErr : RespData :=
  ⟨some "bad domain", none, none, none, none, none⟩

/-- A success response in which only mode and sources_used are present. -/
def dataSparse : RespData :=
  ⟨none, none, some "fast", none, some ["a"], none⟩

theorem handleData_requests (data : RespData) (req : AskRequest) (s : DomState) :
    (handleData data req s).requests = [req] := by
  rcases data with ⟨e, orr, om, od, os, odur⟩
  unfold handleData
  dsimp only
  split
  · rfl
  · cases om
    · rfl
    · cases os <;> rfl

/-- C1: for every input whose trimmed text is non-empty, regardless of the
fetch outcome, exactly one request is issued, and it is a POST to the fixed
endpoint with the JSON content type header and a body that is the JSON
serialization of an object whose single field query holds the trimmed
text. -/
theorem askCerebro_posts_single_request (input : String) (backend : FetchOutcome)
    (s : DomState) (h : jsTrim input ≠ "") :
    (askCerebro input backend s).requests =
      [⟨"http://localhost:5000/ask", "POST", "application/json",
        jsonBody (jsTrim input)⟩] := by
  cases backend with
  | failure err => simp [askCerebro, h, mkRequest, askUrl]
  | success data => simp [askCerebro, h, mkRequest, askUrl, handleData_requests]

/-- Witness for C1 at the concrete input " hi ": one request is issued and
its body serializes the trimmed text hi. -/
theorem askCerebro_posts_single_request_witness :
    jsTrim " hi " ≠ "" ∧
    (askCerebro " hi " (.failure "refused") initState).requests =
      [⟨"http://localhost:5000/ask", "POST", "application/json",
        "\x7b\"query\":\"hi\"\x7d"⟩] := by
  refine ⟨by decide, ?_⟩
  have h := askCerebro_posts_single_request " hi " (.failure "refused") initState
    (by decide)
  rw [h]
  decide

/-- C2: for every input that trims to the empty string, no request is
issued, the status becomes exactly the fixed message, and nothing is
logged: the path is terminal and non-erroring. -/
theorem askCerebro_empty_input (input : String) (backend : FetchOutcome)
    (s : DomState) (h : jsTrim input = "") :
    (askCerebro input backend s).requests = [] ∧
    (askCerebro input backend s).dom.status = "Please enter a query." ∧
    (askCerebro input backend s).log = [] := by
  refine ⟨?_, ?_, ?_⟩ <;> simp [askCerebro, submitEarly, h, pleaseMsg]

/-- Witness for C2 at a whitespace-only input. -/
theorem askCerebro_empty_input_witness :
    jsTrim "   " = "" ∧
    ((askCerebro "   " (.failure "down") initState).requests = [] ∧
     (askCerebro "   " (.failure "down") initState).dom.status =
       "Please enter a query." ∧
     (askCerebro "   " (.failure "down") initState).log = []) :=
  ⟨by decide, askCerebro_empty_input "   " (.failure "down") initState (by decide)⟩

/-- C3: for every parsed response whose error field is absent or falsy and
whose five data fields are present, the final display state has the answer
body verbatim, the mode upper-cased, the domain verbatim, the sources
joined with a comma and a space, the duration as received, the result
region revealed, and the status cleared to the empty string; every other
aspect of the display state is exactly the prior state. -/
theorem askCerebro_success_render (input : String) (s : DomState) (data : RespData)
    (r m d dur : String) (srcs : List String)
    (h : jsTrim input ≠ "") (he : truthy data.error = false)
    (hr : data.response = some r) (hm : data.mode = some m)
    (hd : data.domain_used = some d) (hs : data.sources_used = some srcs)
    (hdur : data.duration_secs = some dur) :
    (askCerebro input (.success data) s).dom =
      { s with status := "", hidden := false, output := r, mode := jsToUpper m,
               domain := d, sources := joinSep ", " srcs, duration := dur } := by
  rcases data with ⟨e, orr, om, od, os, odur⟩
  cases hr; cases hm; cases hd; cases hs; cases hdur
  simp only [RespData.error] at he
  simp [askCerebro, submitEarly, handleData, h, he, innerTextOf]

/-- Witness for C3 at the example response of the spec: mode renders as
FAST, sources as a comma-space join, the rest verbatim, the region is
revealed and the status cleared. -/
theorem askCerebro_success_render_witness :
    jsTrim "q" ≠ "" ∧
    (askCerebro "q" (.success dataFull) initState).dom =
      ⟨"", false, "42", "FAST", "math", "a, b", "0.12"⟩ := by
  refine ⟨by decide, ?_⟩
  have h := askCerebro_success_render "q" initState dataFull
    "42" "fast" "math" "0.12" ["a", "b"] (by decide) (by decide)
    rfl rfl rfl rfl rfl
  rw [h]
  decide

/-- C4: for every parsed response whose error field is truthy, the status
becomes the error message interpolating the error value (hence a message
that contains that value as a substring, witnessed by an explicit prefix),
and the result region stays hidden. -/
theorem askCerebro_backend_error (input : String) (s : DomState) (data : RespData)
    (e : String) (h : jsTrim input ≠ "") (he : data.error = some e) (hne : e ≠ "") :
    (askCerebro input (.success data) s).dom.status = backendErrorMsg e ∧
    (∃ pre, (askCerebro input (.success data) s).dom.status = pre ++ e) ∧
    (askCerebro input (.success data) s).dom.hidden = true := by
  rcases data with ⟨e0, orr, om, od, os, odur⟩
  cases he
  refine ⟨?_, ⟨"⚠️ Error: ", ?_⟩, ?_⟩ <;>
    simp [askCerebro, submitEarly, handleData, h, truthy, hne, backendErrorMsg]

/-- Witness for C4 at the simulated response carrying the error value bad
domain. -/
theorem askCerebro_backend_error_witness :
    jsTrim "q" ≠ "" ∧
    ((askCerebro "q" (.success dataErr) initState).dom.status =
       backendErrorMsg "bad domain" ∧
     (∃ pre, (askCerebro "q" (.success dataErr) initState).dom.status =
       pre ++ "bad domain") ∧
     (askCerebro "q" (.success dataErr) initState).dom.hidden = true) :=
  ⟨by decide, askCerebro_backend_error "q" initState dataErr "bad domain"
    (by decide) rfl (by decide)⟩

/-- C5 counterexample: the status set on a network failure is not exactly
the text Failed to connect to Cerebro backend., because the code prefixes a
warning sign. -/
theorem connect_failure_status_counterexample :
    (askCerebro "hi" (.failure "ECONNREFUSED") initState).dom.status ≠
      "Failed to connect to Cerebro backend." := by decide

/-- C5 amended: on every fetch or parse failure for a non-empty trimmed
input, the status becomes the fixed message with the warning-sign prefix,
the result region stays hidden, the underlying error is recorded to the
log, and exactly one request was issued with no retry. -/
theorem askCerebro_transport_failure (input err : String) (s : DomState)
    (h : jsTrim input ≠ "") :
    (askCerebro input (.failure err) s).dom.status =
      "⚠️ Failed to connect to Cerebro backend." ∧
    (askCerebro input (.failure err) s).dom.hidden = true ∧
    (askCerebro input (.failure err) s).log = [err] ∧
    (askCerebro input (.failure err) s).requests.length = 1 := by
  refine ⟨?_, ?_, ?_, ?_⟩ <;> simp [askCerebro, submitEarly, h, connectFailMsg]

/-- Witness for the amended C5 at a concrete refused connection. -/
theorem askCerebro_transport_failure_witness :
    jsTrim "hi" ≠ "" ∧
    ((askCerebro "hi" (.failure "ECONNREFUSED") initState).dom.status =
       "⚠️ Failed to connect to Cerebro backend." ∧
     (askCerebro "hi" (.failure "ECONNREFUSED") initState).dom.hidden = true ∧
     (askCerebro "hi" (.failure "ECONNREFUSED") initState).log = ["ECONNREFUSED"] ∧
     (askCerebro "hi" (.failure "ECONNREFUSED") initState).requests.length = 1) :=
  ⟨by decide, askCerebro_transport_failure "hi" "ECONNREFUSED" initState (by decide)⟩

/-- C6 counterexample: a response whose error field is present but holds
the empty string does not take the failure path: the result region is
revealed and the status is cleared, because the code tests truthiness, not
presence. -/
theorem error_present_empty_counterexample :
    (askCerebro "q" (.success dataEmptyError) initState).dom.hidden = false ∧
    (askCerebro "q" (.success dataEmptyError) initState).dom.status = "" := by
  decide

/-- C6 amended: the failure path is taken exactly when the error field is
present with a truthy (non-empty) value; then the status is the error
message interpolating that value and the result region stays hidden.  A
present but empty error field is falsy and falls through to the success
path. -/
theorem askCerebro_error_nonempty_failure_path (input : String) (s : DomState)
    (data : RespData) (e : String) (h : jsTrim input ≠ "")
    (he : data.error = some e) (hne : e ≠ "") :
    (askCerebro input (.success data) s).dom.status = "⚠️ Error: " ++ e ∧
    (askCerebro input (.success data) s).dom.hidden = true := by
  rcases data with ⟨e0, orr, om, od, os, odur⟩
  cases he
  constructor <;>
    simp [askCerebro, submitEarly, handleData, h, truthy, hne, backendErrorMsg]

/-- Witness for the amended C6 at a present non-empty error value. -/
theorem askCerebro_error_nonempty_failure_path_witness :
    jsTrim "q" ≠ "" ∧
    ((askCerebro "q" (.success dataErr) initState).dom.status =
       "⚠️ Error: " ++ "bad domain" ∧
     (askCerebro "q" (.success dataErr) initState).dom.hidden = true) :=
  ⟨by decide, askCerebro_error_nonempty_failure_path "q" initState dataErr
    "bad domain" (by decide) rfl (by decide)⟩

/-- C7 counterexample: on a success response from which mode is absent, the
render pass does not complete: calling toUpperCase on the undefined mode
throws, the catch block takes over, the status becomes the connectivity
failure message and the result region stays hidden. -/
theorem missing_mode_counterexample :
    (askCerebro "q" (.success dataNoMode) initState).dom.status =
      "⚠️ Failed to connect to Cerebro backend." ∧
    (askCerebro "q" (.success dataNoMode) initState).dom.hidden = true := by
  decide

/-- C7 amended: on a non-error response, absence of response, domain_used
or duration_secs is tolerated and renders the text undefined, but absence
of mode or of sources_used throws during the render, so the catch path is
taken: status becomes the connectivity failure message and the region
stays hidden. -/
theorem askCerebro_missing_fields (input : String) (s : DomState) (data : RespData)
    (h : jsTrim input ≠ "") (he : truthy data.error = false) :
    ((∀ m srcs, data.mode = some m → data.sources_used = some srcs →
       (askCerebro input (.success data) s).dom =
         { s with status := "", hidden := false,
                  output := innerTextOf data.response,
                  mode := jsToUpper m,
                  domain := innerTextOf data.domain_used,
                  sources := joinSep ", " srcs,
                  duration := innerTextOf data.duration_secs }) ∧
     (data.mode = none →
       (askCerebro input (.success data) s).dom.status = connectFailMsg ∧
       (askCerebro input (.success data) s).dom.hidden = true) ∧
     (∀ m, data.mode = some m → data.sources_used = none →
       (askCerebro input (.success data) s).dom.status = connectFailMsg ∧
       (askCerebro input (.success data) s).dom.hidden = true)) := by
  rcases data with ⟨e0, orr, om, od, os, odur⟩
  simp only [RespData.error] at he
  refine ⟨?_, ?_, ?_⟩
  · rintro m srcs rfl rfl
    simp [askCerebro, submitEarly, handleData, h, he, innerTextOf]
  · rintro rfl
    constructor <;> simp [askCerebro, submitEarly, handleData, h, he]
  · rintro m rfl rfl
    constructor <;> simp [askCerebro, submitEarly, handleData, h, he]

/-- Witness for the amended C7 at a response carrying only mode and
sources_used: the render completes and the three absent fields show the
text undefined. -/
theorem askCerebro_missing_fields_witness :
    jsTrim "q" ≠ "" ∧ truthy dataSparse.error = false ∧
    (askCerebro "q" (.success dataSparse) initState).dom =
      ⟨"", false, "undefined", "FAST", "undefined", "a", "undefined"⟩ := by
  refine ⟨by decide, by decide, ?_⟩
  have h := (askCerebro_missing_fields "q" initState dataSparse
    (by decide) (by decide)).1 "fast" ["a"] rfl rfl
  rw [h]
  decide

/-- C8 counterexample: the transient status shown before the fetch is
awaited is spelled with three ASCII periods, so it differs from the text
with the single ellipsis character quoted by the claim. -/
theorem thinking_status_counterexample :
    (submitEarly "hi" initState).status ≠ "Thinking…" := by decide

/-- C8 amended: for every input whose trimmed text is non-empty, the
display state in force before the fetch is awaited (submitEarly, from which
askCerebro proceeds) has status Thinking followed by three ASCII periods,
and the result region hidden. -/
theorem askCerebro_thinking_state (input : String) (s : DomState)
    (h : jsTrim input ≠ "") :
    (submitEarly input s).status = "Thinking..." ∧
    (submitEarly input s).hidden = true := by
  constructor <;> simp [submitEarly, h, thinkingMsg]

/-- Witness for the amended C8 at a concrete non-empty input. -/
theorem askCerebro_thinking_state_witness :
    jsTrim "hello" ≠ "" ∧
    ((submitEarly "hello" sampleState).status = "Thinking..." ∧
     (submitEarly "hello" sampleState).hidden = true) :=
  ⟨by decide, askCerebro_thinking_state "hello" sampleState (by decide)⟩

/-- C9: submitting the same non-empty query twice in sequence, with the
same fetch outcome each time, yields the same display state after the
second submission as after the first: the transition on display states is
idempotent, so no residual state from the first call shows through beyond
what the backend returns. -/
theorem askCerebro_idempotent (input : String) (backend : FetchOutcome)
    (s : DomState) (h : jsTrim input ≠ "") :
    (askCerebro input backend (askCerebro input backend s).dom).dom =
      (askCerebro input backend s).dom := by
  rcases s with ⟨st, hd, ou, mo, dm, so, du⟩
  cases backend with
  | failure err => simp [askCerebro, submitEarly, h]
  | success data =>
    rcases data with ⟨e0, orr, om, od, os, odur⟩
    cases he : truthy e0
    · cases om
      · simp [askCerebro, submitEarly, handleData, h, he]
      · cases os <;> simp [askCerebro, submitEarly, handleData, h, he]
    · simp [askCerebro, submitEarly, handleData, h, he]

/-- Witness for C9: the same error response submitted twice from the
neutral state yields identical display states. -/
theorem askCerebro_idempotent_witness :
    jsTrim "q" ≠ "" ∧
    (askCerebro "q" (.success dataErr)
        (askCerebro "q" (.success dataErr) sampleState).dom).dom =
      (askCerebro "q" (.success dataErr) sampleState).dom :=
  ⟨by decide, askCerebro_idempotent "q" (.success dataErr) sampleState (by decide)⟩

/-- C10: frame conditions.  On the empty-input path the whole display state
except the status line is unchanged, so in particular the five result
sub-fields and the visibility of the result region are preserved.  On the
backend-error path (error present and truthy) the five result sub-fields
are preserved. -/
theorem askCerebro_frame (input : String) (backend : FetchOutcome)
    (data : RespData) (e : String) (s : DomState) :
    (jsTrim input = "" →
       (askCerebro input backend s).dom = { s with status := pleaseMsg }) ∧
    (backend = .success data → data.error = some e → e ≠ "" →
       (askCerebro input backend s).dom.output = s.output ∧
       (askCerebro input backend s).dom.mode = s.mode ∧
       (askCerebro input backend s).dom.domain = s.domain ∧
       (askCerebro input backend s).dom.sources = s.sources ∧
       (askCerebro input backend s).dom.duration = s.duration) := by
  constructor
  · intro h
    simp [askCerebro, submitEarly, h]
  · rintro rfl he hne
    rcases data with ⟨e0, orr, om, od, os, odur⟩
    cases he
    by_cases h : jsTrim input = "" <;>
      refine ⟨?_, ?_, ?_, ?_, ?_⟩ <;>
        simp [askCerebro, submitEarly, handleData, h, truthy, hne]

/-- Witness for C10: on empty input with a previously shown result, the
result sub-fields and the visibility are kept and only the status changes;
the backend-error conjunct is exercised at the same concrete response. -/
theorem askCerebro_frame_witness :
    ((askCerebro "  " (.success dataErr) sampleState).dom =
       { sampleState with status := pleaseMsg }) ∧
    ((askCerebro "  " (.success dataErr) sampleState).dom.output =
       sampleState.output ∧
     (askCerebro "  " (.success dataErr) sampleState).dom.mode =
       sampleState.mode ∧
     (askCerebro "  " (.success dataErr) sampleState).dom.domain =
       sampleState.domain ∧
     (askCerebro "  " (.success dataErr) sampleState).dom.sources =
       sampleState.sources ∧
     (askCerebro "  " (.success dataErr) sampleState).dom.duration =
       sampleState.duration) := by
  have h := askCerebro_frame "  " (.success dataErr) dataErr "bad domain" sampleState
  exact ⟨h.1 (by decide), h.2 rfl rfl (by decide)⟩
